import Mathlib

/-!
# fase1.c: a button/LED kernel module

A shallow embedding of `src/fase1.c` (four push-buttons, two LEDs, four
user-mode scripts) together with theorems about its interrupt handler
`ebbgpio_irq_handler` and its start-up function `ebbgpio_init`.

* The ten file-scope variables of the module form the record `Globals`.
* Every call into the kernel (GPIO, IRQ, printk, user-mode helper) is appended,
  with its arguments and the value the kernel returned, to a log of `Event`s.
  Stores to the LED variables and counter increments are logged as well, so
  that the order of effects inside one handler invocation can be stated.
* The values returned by the kernel are not computed by the module; they are
  supplied by a `Platform` record, one record per invocation.
* `unsigned int` is a natural number reduced modulo `2 ^ 32`.
-/

namespace Fase1

/-! ## Constants of the module and of the kernel headers -/

/-- The modulus of `unsigned int` arithmetic. -/
def UINT_MOD : Nat := 4294967296

/-- The errno value `ENODEV`. -/
def ENODEV : Int := 19

def gpioLEDR : Nat := 16
def gpioLEDG : Nat := 20
def gpioButton1 : Nat := 26
def gpioButton2 : Nat := 19
def gpioButton3 : Nat := 13
def gpioButton4 : Nat := 21

/-- The enumeration `irqreturn_t` of `linux/irqreturn.h`. -/
inductive irqreturn where
  | IRQ_NONE
  | IRQ_HANDLED
  | IRQ_WAKE_THREAD
  deriving DecidableEq, Repr

/-- The wait modes of `call_usermodehelper` (`linux/umh.h`). -/
inductive UmhWait where
  | UMH_NO_WAIT
  | UMH_WAIT_EXEC
  | UMH_WAIT_PROC
  deriving DecidableEq, Repr

/-- The trigger flags of `request_irq` used by the module. -/
inductive IrqFlags where
  | IRQF_TRIGGER_RISING
  deriving DecidableEq, Repr

/-- The four inputs (buttons) of the module. -/
inductive Input where
  | b1
  | b2
  | b3
  | b4
  deriving DecidableEq, Repr

def envp : List String := ["HOME=/", "TERM=linux", "PATH=/sbin:/bin:/usr/sbin:/usr/bin"]
def argvA : List String := ["/home/pi/scripts/scriptA.sh"]
def argvB : List String := ["/home/pi/scripts/scriptB.sh"]
def argvC : List String := ["/home/pi/scripts/scriptC.sh"]
def argvD : List String := ["/home/pi/scripts/scriptD.sh"]

/-! ## State -/

/-- The file-scope variables of `fase1.c`. -/
structure Globals where
  irqNumberBttn1 : Nat
  irqNumberBttn2 : Nat
  irqNumberBttn3 : Nat
  irqNumberBttn4 : Nat
  numberPresses1 : Nat
  numberPresses2 : Nat
  numberPresses3 : Nat
  numberPresses4 : Nat
  ledOnR : Bool
  ledOnG : Bool
  deriving DecidableEq, Repr

/-- One observable effect: a kernel call with its arguments (and result), or a
store to one of the LED variables, or a counter increment. -/
inductive Event where
  | printk (fmt : String) (args : List Int)
  | gpio_is_valid (pin : Nat) (res : Bool)
  | gpio_request (pin : Nat) (label : String) (res : Int)
  | gpio_direction_output (pin : Nat) (value : Int) (res : Int)
  | gpio_direction_input (pin : Nat) (res : Int)
  | gpio_set_debounce (pin : Nat) (ms : Nat) (res : Int)
  | gpio_export (pin : Nat) (direction_may_change : Bool) (res : Int)
  | gpio_unexport (pin : Nat)
  | gpio_free (pin : Nat)
  | gpio_get_value (pin : Nat) (res : Int)
  | gpio_set_value (pin : Nat) (value : Int)
  | gpio_to_irq (pin : Nat) (res : Int)
  | request_irq (irq : Nat) (flags : IrqFlags) (name : String) (res : Int)
  | free_irq (irq : Nat)
  | call_usermodehelper (path : String) (argv : List String) (env : List String)
      (wait : UmhWait) (res : Int)
  | store_ledOnR (value : Bool)
  | store_ledOnG (value : Bool)
  | incr_numberPresses (i : Input)
  deriving DecidableEq, Repr

/-- The module in its environment: its variables and the log of effects. -/
structure Sys where
  mem : Globals
  log : List Event
  deriving DecidableEq, Repr

/-- The values the kernel returns during one invocation of a module function.
`request_irq n irq` is the result of the `n`-th registration made by
`ebbgpio_init`, which is for interrupt number `irq`. -/
structure Platform where
  gpio_is_valid : Nat → Bool
  gpio_request : Nat → Int
  gpio_direction_output : Nat → Int
  gpio_direction_input : Nat → Int
  gpio_set_debounce : Nat → Int
  gpio_export : Nat → Int
  gpio_get_value : Nat → Int
  gpio_to_irq : Nat → Int
  request_irq : Nat → Nat → Int
  call_usermodehelper : String → Int

/-! ## Primitive steps -/

/-- Conversion of a C `bool` to `int`. -/
def boolToInt (b : Bool) : Int := if b then 1 else 0

/-- Conversion of a C `int` to `unsigned int`. -/
def intToUnsigned (r : Int) : Nat := (r % (UINT_MOD : Int)).toNat

def emit (e : Event) (k : Sys) : Sys :=
  { k with log := k.log ++ [e] }

def printk (fmt : String) (args : List Int) (k : Sys) : Sys :=
  emit (Event.printk fmt args) k

def store_ledOnR (b : Bool) (k : Sys) : Sys :=
  emit (Event.store_ledOnR b) { k with mem := { k.mem with ledOnR := b } }

def store_ledOnG (b : Bool) (k : Sys) : Sys :=
  emit (Event.store_ledOnG b) { k with mem := { k.mem with ledOnG := b } }

def incr_numberPresses1 (k : Sys) : Sys :=
  emit (Event.incr_numberPresses Input.b1)
    { k with mem := { k.mem with numberPresses1 := (k.mem.numberPresses1 + 1) % UINT_MOD } }

def incr_numberPresses2 (k : Sys) : Sys :=
  emit (Event.incr_numberPresses Input.b2)
    { k with mem := { k.mem with numberPresses2 := (k.mem.numberPresses2 + 1) % UINT_MOD } }

def incr_numberPresses3 (k : Sys) : Sys :=
  emit (Event.incr_numberPresses Input.b3)
    { k with mem := { k.mem with numberPresses3 := (k.mem.numberPresses3 + 1) % UINT_MOD } }

def incr_numberPresses4 (k : Sys) : Sys :=
  emit (Event.incr_numberPresses Input.b4)
    { k with mem := { k.mem with numberPresses4 := (k.mem.numberPresses4 + 1) % UINT_MOD } }

def gpio_set_value (pin : Nat) (value : Int) (k : Sys) : Sys :=
  emit (Event.gpio_set_value pin value) k

def gpio_get_value (p : Platform) (pin : Nat) (k : Sys) : Int × Sys :=
  (p.gpio_get_value pin, emit (Event.gpio_get_value pin (p.gpio_get_value pin)) k)

def call_usermodehelper (p : Platform) (path : String) (argv env : List String)
    (wait : UmhWait) (k : Sys) : Int × Sys :=
  (p.call_usermodehelper path,
    emit (Event.call_usermodehelper path argv env wait (p.call_usermodehelper path)) k)

/-! ## The interrupt handler -/

/-- The function `ebbgpio_irq_handler` of `fase1.c`, lines 191-228. The
arguments `dev_id` and `regs` are not used by the C code. -/
def ebbgpio_irq_handler (p : Platform) (irq : Nat) (k : Sys) : Sys × irqreturn :=
  if irq = k.mem.irqNumberBttn1 then
    let k := store_ledOnR true k
    let k := gpio_set_value gpioLEDR (boolToInt k.mem.ledOnR) k
    let (v, k) := gpio_get_value p gpioButton1 k
    let k := printk "fase1: Interrupt! (buttonA state is %d)\n" [v] k
    let k := incr_numberPresses1 k
    let (_, k) := call_usermodehelper p (argvA.headD "") argvA envp UmhWait.UMH_NO_WAIT k
    (k, irqreturn.IRQ_HANDLED)
  else if irq = k.mem.irqNumberBttn2 then
    let k := store_ledOnR false k
    let k := gpio_set_value gpioLEDR (boolToInt k.mem.ledOnR) k
    let (v, k) := gpio_get_value p gpioButton1 k
    let k := printk "fase1: Interrupt! (buttonB state is %d)\n" [v] k
    let k := incr_numberPresses2 k
    let (_, k) := call_usermodehelper p (argvB.headD "") argvB envp UmhWait.UMH_NO_WAIT k
    (k, irqreturn.IRQ_HANDLED)
  else if irq = k.mem.irqNumberBttn3 then
    let k := store_ledOnG true k
    let k := gpio_set_value gpioLEDG (boolToInt k.mem.ledOnG) k
    let (v, k) := gpio_get_value p gpioButton1 k
    let k := printk "fase1: Interrupt! (buttonC state is %d)\n" [v] k
    let k := incr_numberPresses3 k
    let (_, k) := call_usermodehelper p (argvC.headD "") argvC envp UmhWait.UMH_NO_WAIT k
    (k, irqreturn.IRQ_HANDLED)
  else
    let k := store_ledOnG false k
    let k := gpio_set_value gpioLEDG (boolToInt k.mem.ledOnG) k
    let (v, k) := gpio_get_value p gpioButton1 k
    let k := printk "fase1: Interrupt! (buttonD state is %d)\n" [v] k
    let k := incr_numberPresses4 k
    let (_, k) := call_usermodehelper p (argvD.headD "") argvD envp UmhWait.UMH_NO_WAIT k
    (k, irqreturn.IRQ_HANDLED)

/-! ## Running the handler on a sequence of edges -/

/-- The registered interrupt number of an input. -/
def irqNumberOf (g : Globals) : Input → Nat
  | Input.b1 => g.irqNumberBttn1
  | Input.b2 => g.irqNumberBttn2
  | Input.b3 => g.irqNumberBttn3
  | Input.b4 => g.irqNumberBttn4

/-- Deliver a sequence of edges, one after another, to `ebbgpio_irq_handler`.
Each edge is an interrupt number together with the values the kernel returns
during that invocation. The results of the invocations are collected. -/
def deliver : List (Platform × Nat) → Sys → Sys × List irqreturn
  | [], k => (k, [])
  | (p, irq) :: es, k =>
    let (k1, r) := ebbgpio_irq_handler p irq k
    let (k2, rs) := deliver es k1
    (k2, r :: rs)

/-- Deliver a sequence of button presses: every press of input `i` arrives
with the interrupt number registered for `i`. -/
def press (seq : List (Platform × Input)) (k : Sys) : Sys × List irqreturn :=
  deliver (seq.map fun e => (e.1, irqNumberOf k.mem e.2)) k

/-! ## Start-up and shut-down -/

def gpio_is_valid (p : Platform) (pin : Nat) (k : Sys) : Bool × Sys :=
  (p.gpio_is_valid pin, emit (Event.gpio_is_valid pin (p.gpio_is_valid pin)) k)

def gpio_request (p : Platform) (pin : Nat) (label : String) (k : Sys) : Int × Sys :=
  (p.gpio_request pin, emit (Event.gpio_request pin label (p.gpio_request pin)) k)

def gpio_direction_output (p : Platform) (pin : Nat) (value : Int) (k : Sys) : Int × Sys :=
  (p.gpio_direction_output pin,
    emit (Event.gpio_direction_output pin value (p.gpio_direction_output pin)) k)

def gpio_direction_input (p : Platform) (pin : Nat) (k : Sys) : Int × Sys :=
  (p.gpio_direction_input pin,
    emit (Event.gpio_direction_input pin (p.gpio_direction_input pin)) k)

def gpio_set_debounce (p : Platform) (pin : Nat) (ms : Nat) (k : Sys) : Int × Sys :=
  (p.gpio_set_debounce pin, emit (Event.gpio_set_debounce pin ms (p.gpio_set_debounce pin)) k)

def gpio_export (p : Platform) (pin : Nat) (direction_may_change : Bool) (k : Sys) :
    Int × Sys :=
  (p.gpio_export pin, emit (Event.gpio_export pin direction_may_change (p.gpio_export pin)) k)

def gpio_unexport (pin : Nat) (k : Sys) : Sys :=
  emit (Event.gpio_unexport pin) k

def gpio_free (pin : Nat) (k : Sys) : Sys :=
  emit (Event.gpio_free pin) k

def gpio_to_irq (p : Platform) (pin : Nat) (k : Sys) : Int × Sys :=
  (p.gpio_to_irq pin, emit (Event.gpio_to_irq pin (p.gpio_to_irq pin)) k)

/-- The `n`-th call of `request_irq`, always made with `ebbgpio_irq_handler` as
handler and `NULL` as `dev_id`. -/
def request_irq (p : Platform) (n : Nat) (irq : Nat) (flags : IrqFlags) (name : String)
    (k : Sys) : Int × Sys :=
  (p.request_irq n irq, emit (Event.request_irq irq flags name (p.request_irq n irq)) k)

def free_irq (irq : Nat) (k : Sys) : Sys :=
  emit (Event.free_irq irq) k

def store_irqNumberBttn1 (v : Int) (k : Sys) : Sys :=
  { k with mem := { k.mem with irqNumberBttn1 := intToUnsigned v } }

def store_irqNumberBttn2 (v : Int) (k : Sys) : Sys :=
  { k with mem := { k.mem with irqNumberBttn2 := intToUnsigned v } }

def store_irqNumberBttn3 (v : Int) (k : Sys) : Sys :=
  { k with mem := { k.mem with irqNumberBttn3 := intToUnsigned v } }

def store_irqNumberBttn4 (v : Int) (k : Sys) : Sys :=
  { k with mem := { k.mem with irqNumberBttn4 := intToUnsigned v } }

/-- The function `ebbgpio_init` of `fase1.c`, lines 61-144. The locals
`result2`, `result3` and `result4` are assigned and never read. -/
def ebbgpio_init (p : Platform) (k : Sys) : Sys × Int :=
  let k := printk "fase1: Initializing the fase1 LKM\n" [] k
  let (validR, k) := gpio_is_valid p gpioLEDR k
  if !validR then
    let k := printk "fase1: invalid LEDR GPIO\n" [] k
    (k, -ENODEV)
  else
  let (validG, k) := gpio_is_valid p gpioLEDG k
  if !validG then
    let k := printk "fase1: invalid LEDG GPIO\n" [] k
    (k, -ENODEV)
  else
  let k := store_ledOnR false k
  let (_, k) := gpio_request p gpioLEDR "sysfs" k
  let (_, k) := gpio_direction_output p gpioLEDR (boolToInt k.mem.ledOnR) k
  let (_, k) := gpio_export p gpioLEDR false k
  let k := store_ledOnG false k
  let (_, k) := gpio_request p gpioLEDG "sysfs" k
  let (_, k) := gpio_direction_output p gpioLEDG (boolToInt k.mem.ledOnG) k
  let (_, k) := gpio_export p gpioLEDG false k
  let (_, k) := gpio_request p gpioButton1 "sysfs" k
  let (_, k) := gpio_direction_input p gpioButton1 k
  let (_, k) := gpio_set_debounce p gpioButton1 200 k
  let (_, k) := gpio_export p gpioButton1 false k
  let (_, k) := gpio_request p gpioButton2 "sysfs" k
  let (_, k) := gpio_direction_input p gpioButton2 k
  let (_, k) := gpio_set_debounce p gpioButton2 200 k
  let (_, k) := gpio_export p gpioButton2 false k
  let (_, k) := gpio_request p gpioButton3 "sysfs" k
  let (_, k) := gpio_direction_input p gpioButton3 k
  let (_, k) := gpio_set_debounce p gpioButton3 200 k
  let (_, k) := gpio_export p gpioButton3 false k
  let (_, k) := gpio_request p gpioButton4 "sysfs" k
  let (_, k) := gpio_direction_input p gpioButton4 k
  let (_, k) := gpio_set_debounce p gpioButton4 200 k
  let (_, k) := gpio_export p gpioButton4 false k
  let (v, k) := gpio_get_value p gpioButton1 k
  let k := printk "fase1: The button state is currently: %d\n" [v] k
  let (i1, k) := gpio_to_irq p gpioButton1 k
  let k := store_irqNumberBttn1 i1 k
  let k := printk "fase1: The buttonA is mapped to IRQ: %d\n" [k.mem.irqNumberBttn1] k
  let (i2, k) := gpio_to_irq p gpioButton2 k
  let k := store_irqNumberBttn2 i2 k
  let k := printk "fase1: The buttonB is mapped to IRQ: %d\n" [k.mem.irqNumberBttn2] k
  let (i3, k) := gpio_to_irq p gpioButton3 k
  let k := store_irqNumberBttn3 i3 k
  let k := printk "fase1: The buttonC is mapped to IRQ: %d\n" [k.mem.irqNumberBttn3] k
  let (i4, k) := gpio_to_irq p gpioButton4 k
  let k := store_irqNumberBttn4 i4 k
  let k := printk "fase1: The buttonD is mapped to IRQ: %d\n" [k.mem.irqNumberBttn4] k
  let (result1, k) :=
    request_irq p 1 k.mem.irqNumberBttn1 IrqFlags.IRQF_TRIGGER_RISING "ebb_gpio_handler" k
  let (_, k) :=
    request_irq p 2 k.mem.irqNumberBttn2 IrqFlags.IRQF_TRIGGER_RISING "ebb_gpio_handler" k
  let (_, k) :=
    request_irq p 3 k.mem.irqNumberBttn3 IrqFlags.IRQF_TRIGGER_RISING "ebb_gpio_handler" k
  let (_, k) :=
    request_irq p 4 k.mem.irqNumberBttn4 IrqFlags.IRQF_TRIGGER_RISING "ebb_gpio_handler" k
  let k := printk "fase1: The interrupt request result1 is: %d\n" [result1] k
  (k, result1)

/-- The function `ebbgpio_exit` of `fase1.c`, lines 151-179. -/
def ebbgpio_exit (p : Platform) (k : Sys) : Sys :=
  let (v, k) := gpio_get_value p gpioButton1 k
  let k := printk "fase1: The buttonA state is currently: %d\n" [v] k
  let k := printk "fase1: The buttonA was pressed %d times\n" [k.mem.numberPresses1] k
  let (v, k) := gpio_get_value p gpioButton2 k
  let k := printk "fase1: The buttonB state is currently: %d\n" [v] k
  let k := printk "fase1: The buttonB was pressed %d times\n" [k.mem.numberPresses2] k
  let (v, k) := gpio_get_value p gpioButton3 k
  let k := printk "fase1: The buttonC state is currently: %d\n" [v] k
  let k := printk "fase1: The buttonC was pressed %d times\n" [k.mem.numberPresses3] k
  let (v, k) := gpio_get_value p gpioButton4 k
  let k := printk "fase1: The buttonD state is currently: %d\n" [v] k
  let k := printk "fase1: The buttonD was pressed %d times\n" [k.mem.numberPresses4] k
  let k := gpio_set_value gpioLEDR 0 k
  let k := gpio_set_value gpioLEDG 0 k
  let k := gpio_unexport gpioLEDR k
  let k := gpio_unexport gpioLEDG k
  let k := free_irq k.mem.irqNumberBttn1 k
  let k := free_irq k.mem.irqNumberBttn2 k
  let k := free_irq k.mem.irqNumberBttn3 k
  let k := free_irq k.mem.irqNumberBttn4 k
  let k := gpio_unexport gpioButton1 k
  let k := gpio_unexport gpioButton2 k
  let k := gpio_unexport gpioButton3 k
  let k := gpio_unexport gpioButton4 k
  let k := gpio_free gpioLEDR k
  let k := gpio_free gpioLEDG k
  let k := gpio_free gpioButton1 k
  let k := gpio_free gpioButton2 k
  let k := gpio_free gpioButton3 k
  let k := gpio_free gpioButton4 k
  printk "fase1: Goodbye from the LKM!\n" [] k

/-! ## Resources held according to a log -/

/-- The effect of one event on the list of held GPIO lines. -/
def heldLinesStep (held : List Nat) : Event → List Nat
  | Event.gpio_request pin _ res => if res = 0 then held ++ [pin] else held
  | Event.gpio_free pin => held.filter (fun q => q ≠ pin)
  | _ => held

/-- The GPIO lines held after a log (oldest event first): those requested with
result `0` and not freed since. -/
def heldLines (log : List Event) : List Nat :=
  log.foldl heldLinesStep []

/-- The effect of one event on the list of held interrupt numbers. -/
def heldIrqsStep (held : List Nat) : Event → List Nat
  | Event.request_irq irq _ _ res => if res = 0 then held ++ [irq] else held
  | Event.free_irq irq => held.filter (fun q => q ≠ irq)
  | _ => held

/-- The interrupt numbers held after a log (oldest event first): those
registered with result `0` and not freed since. -/
def heldIrqs (log : List Event) : List Nat :=
  log.foldl heldIrqsStep []

/-- An event that gives a resource back to the kernel. -/
def Event.isRelease : Event → Bool
  | Event.gpio_free _ => true
  | Event.gpio_unexport _ => true
  | Event.free_irq _ => true
  | _ => false

/-! ## Predicates on states and sample data -/

/-- The four registered interrupt numbers are pairwise distinct. -/
def distinctIrqs (g : Globals) : Prop :=
  g.irqNumberBttn1 ≠ g.irqNumberBttn2 ∧ g.irqNumberBttn1 ≠ g.irqNumberBttn3 ∧
  g.irqNumberBttn1 ≠ g.irqNumberBttn4 ∧ g.irqNumberBttn2 ≠ g.irqNumberBttn3 ∧
  g.irqNumberBttn2 ≠ g.irqNumberBttn4 ∧ g.irqNumberBttn3 ≠ g.irqNumberBttn4

instance (g : Globals) : Decidable (distinctIrqs g) := by
  unfold distinctIrqs
  infer_instance

/-- The state at load time: all counters `0`, both LEDs off. -/
def fresh (g : Globals) : Prop :=
  g.numberPresses1 = 0 ∧ g.numberPresses2 = 0 ∧ g.numberPresses3 = 0 ∧
  g.numberPresses4 = 0 ∧ g.ledOnR = false ∧ g.ledOnG = false

instance (g : Globals) : Decidable (fresh g) := by
  unfold fresh
  infer_instance

/-- The interrupt number `irq` is the registered number of none of the inputs. -/
def unrecognized (g : Globals) (irq : Nat) : Prop :=
  irq ≠ g.irqNumberBttn1 ∧ irq ≠ g.irqNumberBttn2 ∧ irq ≠ g.irqNumberBttn3 ∧
  irq ≠ g.irqNumberBttn4

instance (g : Globals) (irq : Nat) : Decidable (unrecognized g irq) := by
  unfold unrecognized
  infer_instance

/-- A kernel on which every call succeeds; GPIO `n` has interrupt number
`100 + n` and every line reads `1`. -/
def okPlatform : Platform where
  gpio_is_valid := fun _ => true
  gpio_request := fun _ => 0
  gpio_direction_output := fun _ => 0
  gpio_direction_input := fun _ => 0
  gpio_set_debounce := fun _ => 0
  gpio_export := fun _ => 0
  gpio_get_value := fun _ => 1
  gpio_to_irq := fun pin => 100 + pin
  request_irq := fun _ _ => 0
  call_usermodehelper := fun _ => 0

/-- As `okPlatform`, except that launching a script fails with `-ENOENT`. -/
def noScriptPlatform : Platform :=
  { okPlatform with call_usermodehelper := fun _ => -2 }

/-- The module as loaded: the variables hold their C initialisers. -/
def loadedSys : Sys where
  mem := { irqNumberBttn1 := 0, irqNumberBttn2 := 0, irqNumberBttn3 := 0, irqNumberBttn4 := 0,
           numberPresses1 := 0, numberPresses2 := 0, numberPresses3 := 0, numberPresses4 := 0,
           ledOnR := false, ledOnG := false }
  log := []

/-- The module after a successful start-up, with an empty log: interrupt
numbers 126, 119, 113 and 121. -/
def readySys : Sys where
  mem := { irqNumberBttn1 := 126, irqNumberBttn2 := 119, irqNumberBttn3 := 113,
           irqNumberBttn4 := 121,
           numberPresses1 := 0, numberPresses2 := 0, numberPresses3 := 0, numberPresses4 := 0,
           ledOnR := false, ledOnG := false }
  log := []

/-- A running module whose first counter holds the largest `unsigned int`. -/
def saturatedSys : Sys :=
  { readySys with mem := { readySys.mem with numberPresses1 := 4294967295 } }

/-- As `okPlatform`, except that the line of the red LED is busy:
`gpio_request` on GPIO 16 fails with `-EBUSY`. -/
def busyLedPlatform : Platform :=
  { okPlatform with gpio_request := fun pin => if pin = 16 then -16 else 0 }

/-- As `okPlatform`, except that the first interrupt registration fails with
`-EBUSY`. -/
def irq1BusyPlatform : Platform :=
  { okPlatform with request_irq := fun n _ => if n = 1 then -16 else 0 }

/-- As `okPlatform`, except that the second interrupt registration fails with
`-EBUSY`. -/
def irq2BusyPlatform : Platform :=
  { okPlatform with request_irq := fun n _ => if n = 2 then -16 else 0 }

/-- As `okPlatform`, except that the number of the green LED is not a valid
GPIO. -/
def noGreenPlatform : Platform :=
  { okPlatform with gpio_is_valid := fun pin => decide (pin ≠ 20) }

/-! ## The rows of the handler, as tables -/

/-- The input whose row of the handler is executed for `irq`: the first of
inputs 1, 2, 3 whose registered number equals `irq`, and input 4 otherwise. -/
def resolve (g : Globals) (irq : Nat) : Input :=
  if irq = g.irqNumberBttn1 then Input.b1
  else if irq = g.irqNumberBttn2 then Input.b2
  else if irq = g.irqNumberBttn3 then Input.b3
  else Input.b4

/-- The variables after the row of input `i` has been executed. -/
def rowMem (g : Globals) : Input → Globals
  | Input.b1 => { g with ledOnR := true, numberPresses1 := (g.numberPresses1 + 1) % UINT_MOD }
  | Input.b2 => { g with ledOnR := false, numberPresses2 := (g.numberPresses2 + 1) % UINT_MOD }
  | Input.b3 => { g with ledOnG := true, numberPresses3 := (g.numberPresses3 + 1) % UINT_MOD }
  | Input.b4 => { g with ledOnG := false, numberPresses4 := (g.numberPresses4 + 1) % UINT_MOD }

/-- The variables after one invocation for `irq`, as a function of the
variables before it. -/
def stepMem (g : Globals) (irq : Nat) : Globals :=
  rowMem g (resolve g irq)

/-- The store to an LED variable made by the row of input `i`. -/
def latchWrite : Input → Event
  | Input.b1 => Event.store_ledOnR true
  | Input.b2 => Event.store_ledOnR false
  | Input.b3 => Event.store_ledOnG true
  | Input.b4 => Event.store_ledOnG false

/-- The `gpio_set_value` call made by the row of input `i`. -/
def pinWrite : Input → Event
  | Input.b1 => Event.gpio_set_value gpioLEDR 1
  | Input.b2 => Event.gpio_set_value gpioLEDR 0
  | Input.b3 => Event.gpio_set_value gpioLEDG 1
  | Input.b4 => Event.gpio_set_value gpioLEDG 0

/-- The message printed by the row of input `i`. -/
def rowMessage : Input → String
  | Input.b1 => "fase1: Interrupt! (buttonA state is %d)\n"
  | Input.b2 => "fase1: Interrupt! (buttonB state is %d)\n"
  | Input.b3 => "fase1: Interrupt! (buttonC state is %d)\n"
  | Input.b4 => "fase1: Interrupt! (buttonD state is %d)\n"

/-- The script launched by the row of input `i`. -/
def rowScript : Input → String
  | Input.b1 => "/home/pi/scripts/scriptA.sh"
  | Input.b2 => "/home/pi/scripts/scriptB.sh"
  | Input.b3 => "/home/pi/scripts/scriptC.sh"
  | Input.b4 => "/home/pi/scripts/scriptD.sh"

/-- The events of the row of input `i`, in the order in which they happen. -/
def rowEvents (p : Platform) (i : Input) : List Event :=
  [latchWrite i, pinWrite i,
   Event.gpio_get_value gpioButton1 (p.gpio_get_value gpioButton1),
   Event.printk (rowMessage i) [p.gpio_get_value gpioButton1],
   Event.incr_numberPresses i,
   Event.call_usermodehelper (rowScript i) [rowScript i] envp UmhWait.UMH_NO_WAIT
     (p.call_usermodehelper (rowScript i))]

def Event.isLedStore : Event → Bool
  | Event.store_ledOnR _ => true
  | Event.store_ledOnG _ => true
  | _ => false

def Event.isIncrement : Event → Bool
  | Event.incr_numberPresses _ => true
  | _ => false

def Event.isLaunch : Event → Bool
  | Event.call_usermodehelper _ _ _ _ _ => true
  | _ => false

/-! ## Lemmas on one invocation of the handler -/

theorem handler_mem (p : Platform) (irq : Nat) (k : Sys) :
    (ebbgpio_irq_handler p irq k).1.mem = rowMem k.mem (resolve k.mem irq) := by
  unfold ebbgpio_irq_handler resolve
  split_ifs <;> rfl

theorem handler_status (p : Platform) (irq : Nat) (k : Sys) :
    (ebbgpio_irq_handler p irq k).2 = irqreturn.IRQ_HANDLED := by
  unfold ebbgpio_irq_handler
  split_ifs <;> rfl

theorem resolve_irqNumberOf (g : Globals) (h : distinctIrqs g) (i : Input) :
    resolve g (irqNumberOf g i) = i := by
  obtain ⟨h12, h13, h14, h23, h24, h34⟩ := h
  cases i <;> simp [resolve, irqNumberOf, Ne.symm h12, Ne.symm h13, Ne.symm h14,
    Ne.symm h23, Ne.symm h24, Ne.symm h34]

theorem resolve_unmatched (g : Globals) (irq : Nat) (h1 : irq ≠ g.irqNumberBttn1)
    (h2 : irq ≠ g.irqNumberBttn2) (h3 : irq ≠ g.irqNumberBttn3) :
    resolve g irq = Input.b4 := by
  simp [resolve, h1, h2, h3]

theorem handler_log (p : Platform) (irq : Nat) (k : Sys) :
    (ebbgpio_irq_handler p irq k).1.log = k.log ++ rowEvents p (resolve k.mem irq) := by
  unfold ebbgpio_irq_handler resolve
  split_ifs <;>
    simp [store_ledOnR, store_ledOnG, incr_numberPresses1, incr_numberPresses2,
      incr_numberPresses3, incr_numberPresses4, gpio_set_value, gpio_get_value, printk,
      call_usermodehelper, emit, rowEvents, latchWrite, pinWrite, rowMessage, rowScript,
      boolToInt, argvA, argvB, argvC, argvD]

/-! ## Theorems on one invocation of the handler -/

/-- C1: with pairwise distinct registered interrupt numbers, one call of the
handler with the interrupt number of button i adds 1 (modulo 2^32) to counter i,
stores the mapped level in the mapped LED variable and passes it to
`gpio_set_value`, and leaves every other variable as it was. -/
theorem single_press_effect (p : Platform) (k : Sys) (hd : distinctIrqs k.mem) :
    ((ebbgpio_irq_handler p k.mem.irqNumberBttn1 k).1.mem =
        { k.mem with ledOnR := true,
                     numberPresses1 := (k.mem.numberPresses1 + 1) % 2 ^ 32 } ∧
      Event.gpio_set_value gpioLEDR 1 ∈
        (ebbgpio_irq_handler p k.mem.irqNumberBttn1 k).1.log.drop k.log.length) ∧
    ((ebbgpio_irq_handler p k.mem.irqNumberBttn2 k).1.mem =
        { k.mem with ledOnR := false,
                     numberPresses2 := (k.mem.numberPresses2 + 1) % 2 ^ 32 } ∧
      Event.gpio_set_value gpioLEDR 0 ∈
        (ebbgpio_irq_handler p k.mem.irqNumberBttn2 k).1.log.drop k.log.length) ∧
    ((ebbgpio_irq_handler p k.mem.irqNumberBttn3 k).1.mem =
        { k.mem with ledOnG := true,
                     numberPresses3 := (k.mem.numberPresses3 + 1) % 2 ^ 32 } ∧
      Event.gpio_set_value gpioLEDG 1 ∈
        (ebbgpio_irq_handler p k.mem.irqNumberBttn3 k).1.log.drop k.log.length) ∧
    ((ebbgpio_irq_handler p k.mem.irqNumberBttn4 k).1.mem =
        { k.mem with ledOnG := false,
                     numberPresses4 := (k.mem.numberPresses4 + 1) % 2 ^ 32 } ∧
      Event.gpio_set_value gpioLEDG 0 ∈
        (ebbgpio_irq_handler p k.mem.irqNumberBttn4 k).1.log.drop k.log.length) := by
  have r1 := resolve_irqNumberOf k.mem hd Input.b1
  have r2 := resolve_irqNumberOf k.mem hd Input.b2
  have r3 := resolve_irqNumberOf k.mem hd Input.b3
  have r4 := resolve_irqNumberOf k.mem hd Input.b4
  simp only [irqNumberOf] at r1 r2 r3 r4
  simp only [handler_mem, handler_log, List.drop_left, r1, r2, r3, r4]
  simp [rowMem, rowEvents, pinWrite, UINT_MOD]

/-- Witness for C1: the four presses on the state after a successful start-up. -/
theorem single_press_effect_witness :
    distinctIrqs readySys.mem ∧
    (ebbgpio_irq_handler okPlatform 126 readySys).1.mem =
      { readySys.mem with ledOnR := true, numberPresses1 := 1 } ∧
    (ebbgpio_irq_handler okPlatform 121 readySys).1.mem =
      { readySys.mem with ledOnG := false, numberPresses4 := 1 } :=
  ⟨by decide, (single_press_effect okPlatform readySys (by decide)).1.1,
    (single_press_effect okPlatform readySys (by decide)).2.2.2.1⟩

/-- C3: for every interrupt number, every state and every outcome of the kernel
calls, the handler returns `IRQ_HANDLED` (and so never `IRQ_NONE`). -/
theorem handler_always_handled (p : Platform) (irq : Nat) (k : Sys) :
    (ebbgpio_irq_handler p irq k).2 = irqreturn.IRQ_HANDLED ∧
    (ebbgpio_irq_handler p irq k).2 ≠ irqreturn.IRQ_NONE := by
  rw [handler_status]
  exact ⟨rfl, by decide⟩

/-- C4: an interrupt number different from the registered numbers of buttons
1, 2 and 3 gets the row of button 4: green is set to false, counter 4 is
incremented, script D is launched, the other variables are unchanged; when the
number of button 4 is itself different from those of buttons 1..3, the result is
the one for button 4. -/
theorem unmatched_irq_is_button4 (p : Platform) (irq : Nat) (k : Sys)
    (h1 : irq ≠ k.mem.irqNumberBttn1) (h2 : irq ≠ k.mem.irqNumberBttn2)
    (h3 : irq ≠ k.mem.irqNumberBttn3) :
    (ebbgpio_irq_handler p irq k).1.mem =
      { k.mem with ledOnG := false,
                   numberPresses4 := (k.mem.numberPresses4 + 1) % 2 ^ 32 } ∧
    (ebbgpio_irq_handler p irq k).1.log = k.log ++
      [Event.store_ledOnG false,
       Event.gpio_set_value gpioLEDG 0,
       Event.gpio_get_value gpioButton1 (p.gpio_get_value gpioButton1),
       Event.printk "fase1: Interrupt! (buttonD state is %d)\n" [p.gpio_get_value gpioButton1],
       Event.incr_numberPresses Input.b4,
       Event.call_usermodehelper "/home/pi/scripts/scriptD.sh" ["/home/pi/scripts/scriptD.sh"]
         ["HOME=/", "TERM=linux", "PATH=/sbin:/bin:/usr/sbin:/usr/bin"] UmhWait.UMH_NO_WAIT
         (p.call_usermodehelper "/home/pi/scripts/scriptD.sh")] ∧
    (ebbgpio_irq_handler p irq k).2 = irqreturn.IRQ_HANDLED ∧
    (k.mem.irqNumberBttn4 ≠ k.mem.irqNumberBttn1 → k.mem.irqNumberBttn4 ≠ k.mem.irqNumberBttn2 →
      k.mem.irqNumberBttn4 ≠ k.mem.irqNumberBttn3 →
      ebbgpio_irq_handler p irq k = ebbgpio_irq_handler p k.mem.irqNumberBttn4 k) := by
  refine ⟨?_, ?_, handler_status p irq k, ?_⟩
  · rw [handler_mem, resolve_unmatched k.mem irq h1 h2 h3]
    rfl
  · rw [handler_log, resolve_unmatched k.mem irq h1 h2 h3]
    rfl
  · intro g1 g2 g3
    simp [ebbgpio_irq_handler, h1, h2, h3, g1, g2, g3]

/-- Witness for C4: interrupt number 99 is registered for no button. -/
theorem unmatched_irq_is_button4_witness :
    (ebbgpio_irq_handler okPlatform 99 readySys).1.mem =
      { readySys.mem with ledOnG := false, numberPresses4 := 1 } ∧
    ebbgpio_irq_handler okPlatform 99 readySys = ebbgpio_irq_handler okPlatform 121 readySys :=
  ⟨(unmatched_irq_is_button4 okPlatform 99 readySys (by decide) (by decide) (by decide)).1,
    (unmatched_irq_is_button4 okPlatform 99 readySys (by decide) (by decide)
      (by decide)).2.2.2 (by decide) (by decide) (by decide)⟩

/-- C5, as stated, fails: interrupt number 99 is none of the four registered
numbers 126, 119, 113, 121, yet the handler changes counter 4 (and writes the
green LED), so it is not true that neither effect occurs. -/
theorem unrecognized_input_changes_state :
    unrecognized readySys.mem 99 ∧
    ¬ ((ebbgpio_irq_handler okPlatform 99 readySys).1.mem = readySys.mem) ∧
    (ebbgpio_irq_handler okPlatform 99 readySys).1.mem.numberPresses4 = 1 ∧
    readySys.mem.numberPresses4 = 0 ∧
    Event.store_ledOnG false ∈ (ebbgpio_irq_handler okPlatform 99 readySys).1.log := by
  decide

/-- C5, amended: in every invocation, for a recognized and for an unrecognized
interrupt number alike, exactly one LED store and exactly one counter increment
happen, and they belong to the same input; for an unrecognized number they are
those of input 4: green is set to false and counter 4 is incremented. -/
theorem latch_and_counter_together (p : Platform) (irq : Nat) (k : Sys) :
    ((ebbgpio_irq_handler p irq k).1.log.filter Event.isLedStore).length =
      (k.log.filter Event.isLedStore).length + 1 ∧
    ((ebbgpio_irq_handler p irq k).1.log.filter Event.isIncrement).length =
      (k.log.filter Event.isIncrement).length + 1 ∧
    (∃ i : Input,
      (((ebbgpio_irq_handler p irq k).1.log.drop k.log.length).filter Event.isLedStore =
          [latchWrite i]) ∧
      (((ebbgpio_irq_handler p irq k).1.log.drop k.log.length).filter Event.isIncrement =
          [Event.incr_numberPresses i]) ∧
      (distinctIrqs k.mem → ∀ j : Input, irq = irqNumberOf k.mem j → i = j)) ∧
    (unrecognized k.mem irq →
      (ebbgpio_irq_handler p irq k).1.mem =
        { k.mem with ledOnG := false,
                     numberPresses4 := (k.mem.numberPresses4 + 1) % 2 ^ 32 }) := by
  refine ⟨?_, ?_, ⟨resolve k.mem irq, ?_, ?_, ?_⟩, ?_⟩
  · rw [handler_log]
    cases resolve k.mem irq <;>
      simp [rowEvents, latchWrite, pinWrite, Event.isLedStore, List.filter_cons]
  · rw [handler_log]
    cases resolve k.mem irq <;>
      simp [rowEvents, latchWrite, pinWrite, Event.isIncrement, List.filter_cons]
  · rw [handler_log]
    cases resolve k.mem irq <;>
      simp [rowEvents, latchWrite, pinWrite, Event.isLedStore, List.filter_cons]
  · rw [handler_log]
    cases resolve k.mem irq <;>
      simp [rowEvents, latchWrite, pinWrite, Event.isIncrement, List.filter_cons]
  · intro hd j hj
    rw [hj, resolve_irqNumberOf k.mem hd j]
  · intro hu
    rw [handler_mem, resolve_unmatched k.mem irq hu.1 hu.2.1 hu.2.2.1]
    rfl

/-- Witness for C5, amended: the unrecognized number 99 on the state after a
successful start-up. -/
theorem latch_and_counter_together_witness :
    unrecognized readySys.mem 99 ∧
    (ebbgpio_irq_handler okPlatform 99 readySys).1.mem =
      { readySys.mem with ledOnG := false, numberPresses4 := 1 } :=
  ⟨by decide, (latch_and_counter_together okPlatform 99 readySys).2.2.2 (by decide)⟩

/-- C7, as stated, fails: when counter 1 holds 4294967295, the largest
`unsigned int`, one press of button 1 sets it to 0, which is smaller. -/
theorem counter_wraps_at_max :
    saturatedSys.mem.numberPresses1 = 4294967295 ∧
    (ebbgpio_irq_handler okPlatform saturatedSys.mem.irqNumberBttn1 saturatedSys).1.mem.numberPresses1
      = 0 ∧
    ¬ (saturatedSys.mem.numberPresses1 ≤
        (ebbgpio_irq_handler okPlatform saturatedSys.mem.irqNumberBttn1
          saturatedSys).1.mem.numberPresses1) := by
  decide

/-- C7, amended: a counter that holds less than the largest `unsigned int` is
not decreased by the handler, whatever the interrupt number; in every state each
counter is either left as it was or replaced by its successor modulo 2^32. -/
theorem counters_monotone_below_max (p : Platform) (irq : Nat) (k : Sys) :
    (k.mem.numberPresses1 < 2 ^ 32 - 1 →
      k.mem.numberPresses1 ≤ (ebbgpio_irq_handler p irq k).1.mem.numberPresses1) ∧
    (k.mem.numberPresses2 < 2 ^ 32 - 1 →
      k.mem.numberPresses2 ≤ (ebbgpio_irq_handler p irq k).1.mem.numberPresses2) ∧
    (k.mem.numberPresses3 < 2 ^ 32 - 1 →
      k.mem.numberPresses3 ≤ (ebbgpio_irq_handler p irq k).1.mem.numberPresses3) ∧
    (k.mem.numberPresses4 < 2 ^ 32 - 1 →
      k.mem.numberPresses4 ≤ (ebbgpio_irq_handler p irq k).1.mem.numberPresses4) ∧
    ((ebbgpio_irq_handler p irq k).1.mem.numberPresses1 = k.mem.numberPresses1 ∨
      (ebbgpio_irq_handler p irq k).1.mem.numberPresses1 = (k.mem.numberPresses1 + 1) % 2 ^ 32) ∧
    ((ebbgpio_irq_handler p irq k).1.mem.numberPresses2 = k.mem.numberPresses2 ∨
      (ebbgpio_irq_handler p irq k).1.mem.numberPresses2 = (k.mem.numberPresses2 + 1) % 2 ^ 32) ∧
    ((ebbgpio_irq_handler p irq k).1.mem.numberPresses3 = k.mem.numberPresses3 ∨
      (ebbgpio_irq_handler p irq k).1.mem.numberPresses3 = (k.mem.numberPresses3 + 1) % 2 ^ 32) ∧
    ((ebbgpio_irq_handler p irq k).1.mem.numberPresses4 = k.mem.numberPresses4 ∨
      (ebbgpio_irq_handler p irq k).1.mem.numberPresses4 = (k.mem.numberPresses4 + 1) % 2 ^ 32) := by
  rw [handler_mem]
  cases resolve k.mem irq <;> refine ⟨?_, ?_, ?_, ?_, ?_, ?_, ?_, ?_⟩ <;>
    simp [rowMem, UINT_MOD] <;> omega

/-- Witness for C7, amended: one press of button 1 on the state after a
successful start-up, where counter 1 is 0. -/
theorem counters_monotone_below_max_witness :
    readySys.mem.numberPresses1 < 2 ^ 32 - 1 ∧
    readySys.mem.numberPresses1 ≤
      (ebbgpio_irq_handler okPlatform 126 readySys).1.mem.numberPresses1 :=
  ⟨by decide, (counters_monotone_below_max okPlatform 126 readySys).1 (by decide)⟩

/-- C10: in every invocation the effects happen in this order: the store to the
LED variable, `gpio_set_value` on the mapped LED, (the read of button 1 and the
message), the counter increment, and last the launch; one script is launched,
the one of the row taken, with its path as only argument, the fixed
environment and `UMH_NO_WAIT`. -/
theorem handler_effect_order (p : Platform) (irq : Nat) (k : Sys) :
    (irq = k.mem.irqNumberBttn1 →
      (ebbgpio_irq_handler p irq k).1.log = k.log ++
        [Event.store_ledOnR true,
         Event.gpio_set_value gpioLEDR 1,
         Event.gpio_get_value gpioButton1 (p.gpio_get_value gpioButton1),
         Event.printk "fase1: Interrupt! (buttonA state is %d)\n" [p.gpio_get_value gpioButton1],
         Event.incr_numberPresses Input.b1,
         Event.call_usermodehelper "/home/pi/scripts/scriptA.sh" ["/home/pi/scripts/scriptA.sh"]
           ["HOME=/", "TERM=linux", "PATH=/sbin:/bin:/usr/sbin:/usr/bin"] UmhWait.UMH_NO_WAIT
           (p.call_usermodehelper "/home/pi/scripts/scriptA.sh")]) ∧
    (irq ≠ k.mem.irqNumberBttn1 → irq = k.mem.irqNumberBttn2 →
      (ebbgpio_irq_handler p irq k).1.log = k.log ++
        [Event.store_ledOnR false,
         Event.gpio_set_value gpioLEDR 0,
         Event.gpio_get_value gpioButton1 (p.gpio_get_value gpioButton1),
         Event.printk "fase1: Interrupt! (buttonB state is %d)\n" [p.gpio_get_value gpioButton1],
         Event.incr_numberPresses Input.b2,
         Event.call_usermodehelper "/home/pi/scripts/scriptB.sh" ["/home/pi/scripts/scriptB.sh"]
           ["HOME=/", "TERM=linux", "PATH=/sbin:/bin:/usr/sbin:/usr/bin"] UmhWait.UMH_NO_WAIT
           (p.call_usermodehelper "/home/pi/scripts/scriptB.sh")]) ∧
    (irq ≠ k.mem.irqNumberBttn1 → irq ≠ k.mem.irqNumberBttn2 → irq = k.mem.irqNumberBttn3 →
      (ebbgpio_irq_handler p irq k).1.log = k.log ++
        [Event.store_ledOnG true,
         Event.gpio_set_value gpioLEDG 1,
         Event.gpio_get_value gpioButton1 (p.gpio_get_value gpioButton1),
         Event.printk "fase1: Interrupt! (buttonC state is %d)\n" [p.gpio_get_value gpioButton1],
         Event.incr_numberPresses Input.b3,
         Event.call_usermodehelper "/home/pi/scripts/scriptC.sh" ["/home/pi/scripts/scriptC.sh"]
           ["HOME=/", "TERM=linux", "PATH=/sbin:/bin:/usr/sbin:/usr/bin"] UmhWait.UMH_NO_WAIT
           (p.call_usermodehelper "/home/pi/scripts/scriptC.sh")]) ∧
    (irq ≠ k.mem.irqNumberBttn1 → irq ≠ k.mem.irqNumberBttn2 → irq ≠ k.mem.irqNumberBttn3 →
      (ebbgpio_irq_handler p irq k).1.log = k.log ++
        [Event.store_ledOnG false,
         Event.gpio_set_value gpioLEDG 0,
         Event.gpio_get_value gpioButton1 (p.gpio_get_value gpioButton1),
         Event.printk "fase1: Interrupt! (buttonD state is %d)\n" [p.gpio_get_value gpioButton1],
         Event.incr_numberPresses Input.b4,
         Event.call_usermodehelper "/home/pi/scripts/scriptD.sh" ["/home/pi/scripts/scriptD.sh"]
           ["HOME=/", "TERM=linux", "PATH=/sbin:/bin:/usr/sbin:/usr/bin"] UmhWait.UMH_NO_WAIT
           (p.call_usermodehelper "/home/pi/scripts/scriptD.sh")]) ∧
    ((ebbgpio_irq_handler p irq k).1.log.filter Event.isLaunch).length =
      (k.log.filter Event.isLaunch).length + 1 := by
  rw [handler_log]
  refine ⟨?_, ?_, ?_, ?_, ?_⟩
  · intro h1
    simp [resolve, h1, rowEvents, latchWrite, pinWrite, rowMessage, rowScript, envp]
  · intro h1 h2
    simp [resolve, h1, ← h2, rowEvents, latchWrite, pinWrite, rowMessage, rowScript, envp]
  · intro h1 h2 h3
    simp [resolve, h1, h2, ← h3, rowEvents, latchWrite, pinWrite, rowMessage, rowScript, envp]
  · intro h1 h2 h3
    simp [resolve, h1, h2, h3, rowEvents, latchWrite, pinWrite, rowMessage, rowScript, envp]
  · cases resolve k.mem irq <;>
      simp [rowEvents, latchWrite, pinWrite, Event.isLaunch, List.filter_cons]

/-- Witness for C10: the press of button 2 on the state after a successful
start-up. -/
theorem handler_effect_order_witness :
    (119 ≠ readySys.mem.irqNumberBttn1 ∧ 119 = readySys.mem.irqNumberBttn2) ∧
    (ebbgpio_irq_handler okPlatform 119 readySys).1.log =
      [Event.store_ledOnR false,
       Event.gpio_set_value 16 0,
       Event.gpio_get_value 26 1,
       Event.printk "fase1: Interrupt! (buttonB state is %d)\n" [1],
       Event.incr_numberPresses Input.b2,
       Event.call_usermodehelper "/home/pi/scripts/scriptB.sh" ["/home/pi/scripts/scriptB.sh"]
         ["HOME=/", "TERM=linux", "PATH=/sbin:/bin:/usr/sbin:/usr/bin"] UmhWait.UMH_NO_WAIT 0] :=
  ⟨by decide, (handler_effect_order okPlatform 119 readySys).2.1 (by decide) (by decide)⟩

/-! ## Sequences of edges -/

theorem deliver_cons (p : Platform) (irq : Nat) (es : List (Platform × Nat)) (k : Sys) :
    deliver ((p, irq) :: es) k =
      ((deliver es (ebbgpio_irq_handler p irq k).1).1,
        (ebbgpio_irq_handler p irq k).2 :: (deliver es (ebbgpio_irq_handler p irq k).1).2) :=
  rfl

theorem deliver_mem (es : List (Platform × Nat)) (k : Sys) :
    (deliver es k).1.mem = (es.map Prod.snd).foldl stepMem k.mem := by
  induction es generalizing k with
  | nil => rfl
  | cons e es ih =>
    obtain ⟨p, irq⟩ := e
    rw [deliver_cons]
    simp only [List.map_cons, List.foldl_cons]
    rw [ih, handler_mem]
    rfl

theorem deliver_status (es : List (Platform × Nat)) (k : Sys) :
    (deliver es k).2 = List.replicate es.length irqreturn.IRQ_HANDLED := by
  induction es generalizing k with
  | nil => rfl
  | cons e es ih =>
    obtain ⟨p, irq⟩ := e
    rw [deliver_cons]
    simp only [List.length_cons, List.replicate_succ]
    rw [ih, handler_status]

/-- The facts that hold after a sequence of presses from a fresh state. -/
theorem foldl_presses (g : Globals) (hf : fresh g) (hd : distinctIrqs g) (l : List Input) :
    let m := (l.map (irqNumberOf g)).foldl stepMem g
    (m.irqNumberBttn1 = g.irqNumberBttn1 ∧ m.irqNumberBttn2 = g.irqNumberBttn2 ∧
      m.irqNumberBttn3 = g.irqNumberBttn3 ∧ m.irqNumberBttn4 = g.irqNumberBttn4) ∧
    m.numberPresses1 = l.count Input.b1 % 2 ^ 32 ∧
    m.numberPresses2 = l.count Input.b2 % 2 ^ 32 ∧
    m.numberPresses3 = l.count Input.b3 % 2 ^ 32 ∧
    m.numberPresses4 = l.count Input.b4 % 2 ^ 32 ∧
    m.ledOnR = decide ((l.filter
      (fun i => decide (i = Input.b1 ∨ i = Input.b2))).getLast? = some Input.b1) ∧
    m.ledOnG = decide ((l.filter
      (fun i => decide (i = Input.b3 ∨ i = Input.b4))).getLast? = some Input.b3) := by
  induction l using List.reverseRecOn with
  | nil =>
    obtain ⟨f1, f2, f3, f4, f5, f6⟩ := hf
    simp [f1, f2, f3, f4, f5, f6]
  | append_singleton l x ih =>
    simp only [List.map_append, List.map_cons, List.map_nil, List.foldl_append, List.foldl_cons,
      List.foldl_nil] at ih ⊢
    generalize (l.map (irqNumberOf g)).foldl stepMem g = m at ih
    obtain ⟨⟨e1, e2, e3, e4⟩, c1, c2, c3, c4, r, gr⟩ := ih
    have hres : resolve m (irqNumberOf g x) = x := by
      have : resolve m (irqNumberOf g x) = resolve g (irqNumberOf g x) := by
        simp [resolve, e1, e2, e3]
      rw [this, resolve_irqNumberOf g hd x]
    unfold stepMem
    rw [hres]
    cases x <;>
      simp [rowMem, UINT_MOD, e1, e2, e3, e4, c1, c2, c3, c4, r, gr, List.filter_append,
        List.count_append]

theorem press_mem (seq : List (Platform × Input)) (k : Sys) :
    (press seq k).1.mem = ((seq.map Prod.snd).map (irqNumberOf k.mem)).foldl stepMem k.mem := by
  unfold press
  rw [deliver_mem]
  simp [List.map_map, Function.comp_def]

/-- C2: from the fresh state with pairwise distinct registered numbers, after
any finite sequence of presses handled one after another, counter i is the
number of presses of input i (modulo 2^32), red is true exactly when the last
press among inputs 1 and 2 exists and is a press of 1, and green is true exactly
when the last press among inputs 3 and 4 exists and is a press of 3. -/
theorem press_sequence_result (seq : List (Platform × Input)) (k : Sys)
    (hf : fresh k.mem) (hd : distinctIrqs k.mem) :
    (press seq k).1.mem.numberPresses1 = (seq.map Prod.snd).count Input.b1 % 2 ^ 32 ∧
    (press seq k).1.mem.numberPresses2 = (seq.map Prod.snd).count Input.b2 % 2 ^ 32 ∧
    (press seq k).1.mem.numberPresses3 = (seq.map Prod.snd).count Input.b3 % 2 ^ 32 ∧
    (press seq k).1.mem.numberPresses4 = (seq.map Prod.snd).count Input.b4 % 2 ^ 32 ∧
    (press seq k).1.mem.ledOnR = decide (((seq.map Prod.snd).filter
      (fun i => decide (i = Input.b1 ∨ i = Input.b2))).getLast? = some Input.b1) ∧
    (press seq k).1.mem.ledOnG = decide (((seq.map Prod.snd).filter
      (fun i => decide (i = Input.b3 ∨ i = Input.b4))).getLast? = some Input.b3) := by
  rw [press_mem]
  exact (foldl_presses k.mem hf hd (seq.map Prod.snd)).2

/-- Witness for C2: the sequences 1,1 and 1,1,2,3,4 on the state after a
successful start-up (the launch of the third press fails). -/
theorem press_sequence_result_witness :
    (fresh readySys.mem ∧ distinctIrqs readySys.mem) ∧
    ((press [(okPlatform, Input.b1), (okPlatform, Input.b1)] readySys).1.mem.numberPresses1 = 2 ∧
      (press [(okPlatform, Input.b1), (okPlatform, Input.b1)] readySys).1.mem.ledOnR = true) ∧
    ((press [(okPlatform, Input.b1), (okPlatform, Input.b1), (noScriptPlatform, Input.b2),
        (okPlatform, Input.b3), (okPlatform, Input.b4)] readySys).1.mem.numberPresses1 = 2 ∧
      (press [(okPlatform, Input.b1), (okPlatform, Input.b1), (noScriptPlatform, Input.b2),
        (okPlatform, Input.b3), (okPlatform, Input.b4)] readySys).1.mem.numberPresses2 = 1 ∧
      (press [(okPlatform, Input.b1), (okPlatform, Input.b1), (noScriptPlatform, Input.b2),
        (okPlatform, Input.b3), (okPlatform, Input.b4)] readySys).1.mem.numberPresses3 = 1 ∧
      (press [(okPlatform, Input.b1), (okPlatform, Input.b1), (noScriptPlatform, Input.b2),
        (okPlatform, Input.b3), (okPlatform, Input.b4)] readySys).1.mem.numberPresses4 = 1 ∧
      (press [(okPlatform, Input.b1), (okPlatform, Input.b1), (noScriptPlatform, Input.b2),
        (okPlatform, Input.b3), (okPlatform, Input.b4)] readySys).1.mem.ledOnR = false ∧
      (press [(okPlatform, Input.b1), (okPlatform, Input.b1), (noScriptPlatform, Input.b2),
        (okPlatform, Input.b3), (okPlatform, Input.b4)] readySys).1.mem.ledOnG = false) :=
  ⟨⟨by decide, by decide⟩,
    ⟨(press_sequence_result [(okPlatform, Input.b1), (okPlatform, Input.b1)] readySys
        (by decide) (by decide)).1,
      (press_sequence_result [(okPlatform, Input.b1), (okPlatform, Input.b1)] readySys
        (by decide) (by decide)).2.2.2.2.1⟩,
    press_sequence_result [(okPlatform, Input.b1), (okPlatform, Input.b1),
      (noScriptPlatform, Input.b2), (okPlatform, Input.b3), (okPlatform, Input.b4)] readySys
      (by decide) (by decide)⟩

/-- C6: the variables and the returned status do not depend on what the kernel
returns, in particular not on the result of `call_usermodehelper`: two
invocations for the same interrupt number from the same state, and two
deliveries of the same sequence of interrupt numbers, end with the same counters
and LED levels and return the same statuses. -/
theorem launch_outcome_irrelevant (p1 p2 : Platform) (irq : Nat) (k : Sys)
    (es1 es2 : List (Platform × Nat)) (h : es1.map Prod.snd = es2.map Prod.snd) :
    (ebbgpio_irq_handler p1 irq k).1.mem = (ebbgpio_irq_handler p2 irq k).1.mem ∧
    (ebbgpio_irq_handler p1 irq k).2 = (ebbgpio_irq_handler p2 irq k).2 ∧
    (deliver es1 k).1.mem = (deliver es2 k).1.mem ∧
    (deliver es1 k).2 = (deliver es2 k).2 := by
  refine ⟨?_, ?_, ?_, ?_⟩
  · rw [handler_mem, handler_mem]
  · rw [handler_status, handler_status]
  · rw [deliver_mem, deliver_mem, h]
  · have hl : es1.length = es2.length := by
      have := congrArg List.length h
      simpa using this
    rw [deliver_status, deliver_status, hl]

/-- Witness for C6: the launch for button 1 fails in one run and succeeds in the
other; button 3 is pressed afterwards. -/
theorem launch_outcome_irrelevant_witness :
    ([(noScriptPlatform, 126), (okPlatform, 113)].map Prod.snd =
      [(okPlatform, 126), (okPlatform, 113)].map Prod.snd) ∧
    (ebbgpio_irq_handler noScriptPlatform 126 readySys).1.mem =
      (ebbgpio_irq_handler okPlatform 126 readySys).1.mem ∧
    (ebbgpio_irq_handler noScriptPlatform 126 readySys).2 =
      (ebbgpio_irq_handler okPlatform 126 readySys).2 ∧
    (deliver [(noScriptPlatform, 126), (okPlatform, 113)] readySys).1.mem =
      (deliver [(okPlatform, 126), (okPlatform, 113)] readySys).1.mem ∧
    (deliver [(noScriptPlatform, 126), (okPlatform, 113)] readySys).2 =
      (deliver [(okPlatform, 126), (okPlatform, 113)] readySys).2 :=
  ⟨rfl, launch_outcome_irrelevant noScriptPlatform okPlatform 126 readySys
    [(noScriptPlatform, 126), (okPlatform, 113)] [(okPlatform, 126), (okPlatform, 113)] rfl⟩

/-! ## Start-up -/

theorem init_ready : (ebbgpio_init okPlatform loadedSys).1.mem = readySys.mem ∧
    (ebbgpio_init okPlatform loadedSys).2 = 0 := by
  decide

/-- C8, as stated, fails. (a) When `gpio_request` fails for the red LED and
every other call succeeds, start-up returns 0. (b) When the first interrupt
registration fails, start-up returns a non-zero result but still holds the six
lines and the three other interrupts. (c) When only the second registration
fails, start-up returns 0. -/
theorem init_not_all_or_nothing :
    (busyLedPlatform.gpio_request gpioLEDR ≠ 0 ∧
      (ebbgpio_init busyLedPlatform loadedSys).2 = 0) ∧
    ((ebbgpio_init irq1BusyPlatform loadedSys).2 = -16 ∧
      heldLines (ebbgpio_init irq1BusyPlatform loadedSys).1.log = [16, 20, 26, 19, 13, 21] ∧
      heldIrqs (ebbgpio_init irq1BusyPlatform loadedSys).1.log = [119, 113, 121]) ∧
    (irq2BusyPlatform.request_irq 2 119 ≠ 0 ∧
      (ebbgpio_init irq2BusyPlatform loadedSys).2 = 0) := by
  decide

/-- C8, amended: if the number of either LED is not a valid GPIO, start-up
returns `-ENODEV` and has acquired no line and no interrupt and changed no
variable; if the first interrupt registration fails, start-up returns a
non-zero result; start-up returns 0 only if both LED numbers are valid and the
first registration succeeded, and it does return 0 when both are valid and all
four registrations succeed (the results of the line calls are not looked at);
start-up never gives anything back: it makes no `gpio_free`, `gpio_unexport` or
`free_irq` call. The calls made are exactly these: with an invalid red LED
number only the validity check; with a valid red and an invalid green LED
number the two validity checks; with both valid, every line call for the two
LEDs and the four buttons, the four `gpio_to_irq` calls and all four
registrations, in the order of the source, whatever their results, after which
the variables hold both LEDs off and the four interrupt numbers; and when the
first registration fails the value returned is its result. -/
theorem init_result (p : Platform) (k : Sys) :
    ((p.gpio_is_valid gpioLEDR = false ∨ p.gpio_is_valid gpioLEDG = false) →
      (ebbgpio_init p k).2 = -ENODEV ∧ (ebbgpio_init p k).2 ≠ 0 ∧
      (ebbgpio_init p k).1.mem = k.mem ∧
      heldLines (ebbgpio_init p k).1.log = heldLines k.log ∧
      heldIrqs (ebbgpio_init p k).1.log = heldIrqs k.log) ∧
    (p.request_irq 1 (intToUnsigned (p.gpio_to_irq gpioButton1)) ≠ 0 →
      (ebbgpio_init p k).2 ≠ 0) ∧
    ((ebbgpio_init p k).2 = 0 →
      p.gpio_is_valid gpioLEDR = true ∧ p.gpio_is_valid gpioLEDG = true ∧
      p.request_irq 1 (intToUnsigned (p.gpio_to_irq gpioButton1)) = 0) ∧
    (p.gpio_is_valid gpioLEDR = true → p.gpio_is_valid gpioLEDG = true →
      p.request_irq 1 (intToUnsigned (p.gpio_to_irq gpioButton1)) = 0 →
      p.request_irq 2 (intToUnsigned (p.gpio_to_irq gpioButton2)) = 0 →
      p.request_irq 3 (intToUnsigned (p.gpio_to_irq gpioButton3)) = 0 →
      p.request_irq 4 (intToUnsigned (p.gpio_to_irq gpioButton4)) = 0 →
      (ebbgpio_init p k).2 = 0) ∧
    (ebbgpio_init p k).1.log.filter Event.isRelease = k.log.filter Event.isRelease ∧
    (p.gpio_is_valid gpioLEDR = false →
      (ebbgpio_init p k).1.log = k.log ++
        [Event.printk "fase1: Initializing the fase1 LKM\n" [],
         Event.gpio_is_valid gpioLEDR false,
         Event.printk "fase1: invalid LEDR GPIO\n" []]) ∧
    (p.gpio_is_valid gpioLEDR = true → p.gpio_is_valid gpioLEDG = false →
      (ebbgpio_init p k).1.log = k.log ++
        [Event.printk "fase1: Initializing the fase1 LKM\n" [],
         Event.gpio_is_valid gpioLEDR true,
         Event.gpio_is_valid gpioLEDG false,
         Event.printk "fase1: invalid LEDG GPIO\n" []]) ∧
    (p.gpio_is_valid gpioLEDR = true → p.gpio_is_valid gpioLEDG = true →
      (ebbgpio_init p k).1.log = k.log ++
        [Event.printk "fase1: Initializing the fase1 LKM\n" [],
         Event.gpio_is_valid gpioLEDR true,
         Event.gpio_is_valid gpioLEDG true,
         Event.store_ledOnR false,
         Event.gpio_request gpioLEDR "sysfs" (p.gpio_request gpioLEDR),
         Event.gpio_direction_output gpioLEDR 0 (p.gpio_direction_output gpioLEDR),
         Event.gpio_export gpioLEDR false (p.gpio_export gpioLEDR),
         Event.store_ledOnG false,
         Event.gpio_request gpioLEDG "sysfs" (p.gpio_request gpioLEDG),
         Event.gpio_direction_output gpioLEDG 0 (p.gpio_direction_output gpioLEDG),
         Event.gpio_export gpioLEDG false (p.gpio_export gpioLEDG),
         Event.gpio_request gpioButton1 "sysfs" (p.gpio_request gpioButton1),
         Event.gpio_direction_input gpioButton1 (p.gpio_direction_input gpioButton1),
         Event.gpio_set_debounce gpioButton1 200 (p.gpio_set_debounce gpioButton1),
         Event.gpio_export gpioButton1 false (p.gpio_export gpioButton1),
         Event.gpio_request gpioButton2 "sysfs" (p.gpio_request gpioButton2),
         Event.gpio_direction_input gpioButton2 (p.gpio_direction_input gpioButton2),
         Event.gpio_set_debounce gpioButton2 200 (p.gpio_set_debounce gpioButton2),
         Event.gpio_export gpioButton2 false (p.gpio_export gpioButton2),
         Event.gpio_request gpioButton3 "sysfs" (p.gpio_request gpioButton3),
         Event.gpio_direction_input gpioButton3 (p.gpio_direction_input gpioButton3),
         Event.gpio_set_debounce gpioButton3 200 (p.gpio_set_debounce gpioButton3),
         Event.gpio_export gpioButton3 false (p.gpio_export gpioButton3),
         Event.gpio_request gpioButton4 "sysfs" (p.gpio_request gpioButton4),
         Event.gpio_direction_input gpioButton4 (p.gpio_direction_input gpioButton4),
         Event.gpio_set_debounce gpioButton4 200 (p.gpio_set_debounce gpioButton4),
         Event.gpio_export gpioButton4 false (p.gpio_export gpioButton4),
         Event.gpio_get_value gpioButton1 (p.gpio_get_value gpioButton1),
         Event.printk "fase1: The button state is currently: %d\n"
           [p.gpio_get_value gpioButton1],
         Event.gpio_to_irq gpioButton1 (p.gpio_to_irq gpioButton1),
         Event.printk "fase1: The buttonA is mapped to IRQ: %d\n"
           [(intToUnsigned (p.gpio_to_irq gpioButton1) : Int)],
         Event.gpio_to_irq gpioButton2 (p.gpio_to_irq gpioButton2),
         Event.printk "fase1: The buttonB is mapped to IRQ: %d\n"
           [(intToUnsigned (p.gpio_to_irq gpioButton2) : Int)],
         Event.gpio_to_irq gpioButton3 (p.gpio_to_irq gpioButton3),
         Event.printk "fase1: The buttonC is mapped to IRQ: %d\n"
           [(intToUnsigned (p.gpio_to_irq gpioButton3) : Int)],
         Event.gpio_to_irq gpioButton4 (p.gpio_to_irq gpioButton4),
         Event.printk "fase1: The buttonD is mapped to IRQ: %d\n"
           [(intToUnsigned (p.gpio_to_irq gpioButton4) : Int)],
         Event.request_irq (intToUnsigned (p.gpio_to_irq gpioButton1))
           IrqFlags.IRQF_TRIGGER_RISING "ebb_gpio_handler"
           (p.request_irq 1 (intToUnsigned (p.gpio_to_irq gpioButton1))),
         Event.request_irq (intToUnsigned (p.gpio_to_irq gpioButton2))
           IrqFlags.IRQF_TRIGGER_RISING "ebb_gpio_handler"
           (p.request_irq 2 (intToUnsigned (p.gpio_to_irq gpioButton2))),
         Event.request_irq (intToUnsigned (p.gpio_to_irq gpioButton3))
           IrqFlags.IRQF_TRIGGER_RISING "ebb_gpio_handler"
           (p.request_irq 3 (intToUnsigned (p.gpio_to_irq gpioButton3))),
         Event.request_irq (intToUnsigned (p.gpio_to_irq gpioButton4))
           IrqFlags.IRQF_TRIGGER_RISING "ebb_gpio_handler"
           (p.request_irq 4 (intToUnsigned (p.gpio_to_irq gpioButton4))),
         Event.printk "fase1: The interrupt request result1 is: %d\n"
           [p.request_irq 1 (intToUnsigned (p.gpio_to_irq gpioButton1))]] ∧
      (ebbgpio_init p k).1.mem =
        { k.mem with ledOnR := false, ledOnG := false,
                     irqNumberBttn1 := intToUnsigned (p.gpio_to_irq gpioButton1),
                     irqNumberBttn2 := intToUnsigned (p.gpio_to_irq gpioButton2),
                     irqNumberBttn3 := intToUnsigned (p.gpio_to_irq gpioButton3),
                     irqNumberBttn4 := intToUnsigned (p.gpio_to_irq gpioButton4) }) ∧
    (p.gpio_is_valid gpioLEDR = true → p.gpio_is_valid gpioLEDG = true →
      p.request_irq 1 (intToUnsigned (p.gpio_to_irq gpioButton1)) ≠ 0 →
      (ebbgpio_init p k).2 = p.request_irq 1 (intToUnsigned (p.gpio_to_irq gpioButton1))) := by
  cases hR : p.gpio_is_valid gpioLEDR <;> cases hG : p.gpio_is_valid gpioLEDG <;>
    simp [ebbgpio_init, gpio_is_valid, gpio_request, gpio_direction_output,
      gpio_direction_input, gpio_set_debounce, gpio_export, gpio_to_irq, request_irq,
      gpio_get_value, printk, store_ledOnR, store_ledOnG, store_irqNumberBttn1,
      store_irqNumberBttn2, store_irqNumberBttn3, store_irqNumberBttn4, emit, hR, hG, ENODEV,
      heldLines, heldLinesStep, heldIrqs, heldIrqsStep, Event.isRelease, List.filter_cons,
      boolToInt]
  intro h _ _ _
  exact h

/-- Witness for C8, amended: start-up with an invalid green LED number, with a
failing first registration (which still acquires the six lines and the other
three interrupts), and on a kernel where every call succeeds. -/
theorem init_result_witness :
    (noGreenPlatform.gpio_is_valid gpioLEDG = false ∧
      (ebbgpio_init noGreenPlatform loadedSys).2 = -19 ∧
      heldLines (ebbgpio_init noGreenPlatform loadedSys).1.log = []) ∧
    (irq1BusyPlatform.request_irq 1 126 ≠ 0 ∧ (ebbgpio_init irq1BusyPlatform loadedSys).2 ≠ 0) ∧
    (ebbgpio_init okPlatform loadedSys).2 = 0 ∧
    (ebbgpio_init noGreenPlatform loadedSys).1.log =
      [Event.printk "fase1: Initializing the fase1 LKM\n" [],
       Event.gpio_is_valid 16 true,
       Event.gpio_is_valid 20 false,
       Event.printk "fase1: invalid LEDG GPIO\n" []] ∧
    (ebbgpio_init irq1BusyPlatform loadedSys).1.mem = readySys.mem ∧
    (ebbgpio_init irq1BusyPlatform loadedSys).2 = -16 :=
  ⟨⟨by decide, ((init_result noGreenPlatform loadedSys).1 (Or.inr (by decide))).1,
      ((init_result noGreenPlatform loadedSys).1 (Or.inr (by decide))).2.2.2.1⟩,
    ⟨by decide, (init_result irq1BusyPlatform loadedSys).2.1 (by decide)⟩,
    (init_result okPlatform loadedSys).2.2.2.1 (by decide) (by decide) (by decide) (by decide)
      (by decide) (by decide),
    (init_result noGreenPlatform loadedSys).2.2.2.2.2.2.1 (by decide) (by decide),
    ((init_result irq1BusyPlatform loadedSys).2.2.2.2.2.2.2.1 (by decide) (by decide)).2,
    (init_result irq1BusyPlatform loadedSys).2.2.2.2.2.2.2.2 (by decide) (by decide)
      (by decide)⟩

end Fase1
